import Mathlib

/-!
# wasmCloud control-interface client: a shallow embedding

This file embeds the control-interface client (`src/src/lib.rs`) in Lean 4 and
proves properties of the embedding. Durations are modelled in milliseconds as
`Nat` (`Duration::from_secs(2)` becomes `2000`). Effectful collaborators (the
NATS transport, the key-value store, JSON decoding of incoming payloads) are
modelled as explicit oracle parameters: each operation receives the outcomes
the environment would produce and computes the value the Rust code would
return. The modules `broker`, `kv`, `sub_stream` and `types`, declared in
`lib.rs` but not present under `src/`, are modelled from the spec where needed;
each such definition carries a doc comment saying so.
-/

namespace WasmcloudCtl

/-- Durations in milliseconds. -/
abbrev Duration := Nat

/-- A handle to an attached key-value bucket (`async_nats::jetstream::kv::Store`),
identified by the bucket name it was resolved to. -/
structure Store where
  name : String
  deriving DecidableEq, Repr

/-- A NATS connection handle (`async_nats::Client`), abstracted to an identifier. -/
structure NatsClient where
  id : Nat
  deriving DecidableEq, Repr

/-- `CtlOperationAck` from the `types` module: a boolean acceptance flag plus an
error description string. -/
structure CtlOperationAck where
  accepted : Bool
  error : String
  deriving DecidableEq, Repr

/-- The lattice control interface client (struct `Client` in `lib.rs`). -/
structure Client where
  nc : NatsClient
  topicPrefix : Option String
  nsPrefix : String
  timeout : Duration
  auctionTimeout : Duration
  kvstore : Option Store
  deriving DecidableEq, Repr

/-- The client builder (struct `ClientBuilder` in `lib.rs`). -/
structure ClientBuilder where
  nc : Option NatsClient
  topicPrefix : Option String
  nsPrefix : String
  timeout : Duration
  auctionTimeout : Duration
  jsDomain : Option String
  deriving DecidableEq, Repr

/-- `impl Default for ClientBuilder` (`lib.rs:49-60`). -/
def ClientBuilder.default : ClientBuilder :=
  { nc := none
    topicPrefix := none
    nsPrefix := "default"
    timeout := 2000
    auctionTimeout := 5000
    jsDomain := none }

/-- `ClientBuilder::new` (`lib.rs:64-69`): the default configuration with the
supplied NATS connection. -/
def ClientBuilder.new (nc : NatsClient) : ClientBuilder :=
  { ClientBuilder.default with nc := some nc }

/-- Modelled from the spec: the metadata bucket name used by the missing `kv`
module. `lib.rs:113` documents the bucket as `LATTICEDATA_\x7bprefix\x7d`. -/
def bucketName (nsPrefix : String) : String :=
  "LATTICEDATA_" ++ nsPrefix

/-- The state of the external key-value world: which bucket names (under which
optional JetStream routing domain) resolve to an attached store. `none` covers
both absence of the bucket and an attach failure. -/
def KvWorld : Type := String → Option String → Option Store

/-- Modelled from the spec: `kv::get_kv_store` (module `kv` is not under
`src/`). It probes for the metadata key-value bucket named deterministically
from the lattice id (and the optional JetStream routing domain); absence or
attach failure yields `none`, never an error. -/
def get_kv_store (w : KvWorld) (nsPrefix : String) (jsDomain : Option String) :
    Option Store :=
  w (bucketName nsPrefix) jsDomain

/-- `ClientBuilder::build` (`lib.rs:116-129`): fails exactly when no NATS
connection was supplied; otherwise probes the key-value world once and stores
the probe's outcome in `kvstore`. -/
def ClientBuilder.build (b : ClientBuilder) (w : KvWorld) : Except String Client :=
  match b.nc with
  | some nc =>
      .ok { nc := nc
            topicPrefix := b.topicPrefix
            nsPrefix := b.nsPrefix
            timeout := b.timeout
            auctionTimeout := b.auctionTimeout
            kvstore := get_kv_store w b.nsPrefix b.jsDomain }
  | none => .error "Cannot create a control interface client without a NATS client"

/-- `Client::new` (`lib.rs:137-151`, deprecated): never probes the key-value
world, `kvstore` is always `None`. -/
def Client.new (nc : NatsClient) (nsPrefix : Option String)
    (timeout auctionTimeout : Duration) : Client :=
  { nc := nc
    topicPrefix := none
    nsPrefix := nsPrefix.getD "default"
    timeout := timeout
    auctionTimeout := auctionTimeout
    kvstore := none }

/-- `Client::new_with_topic_prefix` (`lib.rs:158-173`, deprecated): never probes
the key-value world, `kvstore` is always `None`. -/
def Client.newWithTopicPrefix (nc : NatsClient) (tp : String)
    (nsPrefix : Option String) (timeout auctionTimeout : Duration) : Client :=
  { nc := nc
    topicPrefix := some tp
    nsPrefix := nsPrefix.getD "default"
    timeout := timeout
    auctionTimeout := auctionTimeout
    kvstore := none }

deriving instance DecidableEq for Except

/-! ## Request-Reply Engine (`Client::request_timeout`, `lib.rs:176-196`) -/

/-- A raw NATS message, abstracted to its payload bytes. -/
structure Message where
  payload : List Nat
  deriving DecidableEq, Repr

/-- The outcome of racing one `nc.request_with_headers` call against
`tokio::time::timeout`: either the timeout elapsed first, or the request
completed with a reply or a transport-level error. -/
inductive RaceOutcome
  | timedOut
  | completed (r : Except String Message)
  deriving DecidableEq, Repr

/-- The failure kinds `request_timeout` can return: the `TimedOut` io error
built at `lib.rs:192`, or the transport error returned verbatim at
`lib.rs:194`. -/
inductive CtlError
  | timedOut (msg : String)
  | transport (e : String)
  deriving DecidableEq, Repr

/-- `Client::request_timeout` (`lib.rs:176-196`). The oracle `attempt n` gives
the outcome the transport would produce for the n-th request issued by this
call; the second component counts the requests actually issued. The body makes
exactly one `request_with_headers` call, so only `attempt 0` is consulted. -/
def Client.request_timeout (attempt : Nat → RaceOutcome) :
    Except CtlError Message × Nat :=
  (match attempt 0 with
   | .timedOut => .error (.timedOut "timed out")
   | .completed (.ok m) => .ok m
   | .completed (.error e) => .error (.transport e), 1)

/-! ## Metadata operations: claims and link definitions -/

/-- `LinkDefinition` from `wasmbus_rpc::core`, with the value map as an
association list. -/
structure LinkDefinition where
  actor_id : String
  provider_id : String
  contract_id : String
  link_name : String
  values : List (String × String)
  deriving DecidableEq, Repr

/-- `LinkDefinition::default()`: all fields empty. -/
def LinkDefinition.default : LinkDefinition :=
  { actor_id := ""
    provider_id := ""
    contract_id := ""
    link_name := ""
    values := [] }

/-- `GetClaimsResponse` from the missing `types` module, modelled minimally as
a list of claim maps (the client never inspects the contents). -/
structure GetClaimsResponse where
  claims : List (List (String × String))
  deriving DecidableEq, Repr

/-- `LinkDefinitionList` from the missing `types` module. -/
structure LinkDefinitionList where
  links : List LinkDefinition
  deriving DecidableEq, Repr

/-- The outcomes the missing `kv` module's operations would produce against the
bound store in this call: `kv::get_claims`, `kv::get_links`, `kv::put_link`,
`kv::delete_link`. -/
structure KvOps where
  getClaimsResult : Except String GetClaimsResponse
  getLinksResult : Except String LinkDefinitionList
  putLinkResult : Except String Unit
  deleteLinkResult : Except String Unit
  deriving DecidableEq, Repr

/-- The outcome of one legacy-mode request on the control topic: the reply
message already passed through `json_deserialize` into the expected type, a
timeout, or a transport error (the error paths of `request_timeout`). -/
inductive RequestOutcome (α : Type)
  | reply (decoded : Except String α)
  | timedOut
  | transportErr (e : String)
  deriving DecidableEq, Repr

/-- How a `request_timeout` failure is rendered into the `format!` message of
the legacy branches: the io timeout error displays as "timed out", a transport
error displays verbatim. -/
def RequestOutcome.renderErr : RequestOutcome α → String
  | .timedOut => "timed out"
  | .transportErr e => e
  | .reply _ => ""

/-- Which branch a metadata operation took: the direct key-value store, or the
legacy bus request. -/
inductive MetaBranch
  | store
  | legacy
  deriving DecidableEq, Repr

/-- The mode fixed at construction: `store` iff a bucket was attached. -/
def Client.mode (c : Client) : MetaBranch :=
  if c.kvstore.isSome then .store else .legacy

/-- `Client::get_claims` (`lib.rs:224-238`): store-backed clients read the
bucket; legacy clients issue a request on the claims topic, propagating a
decode failure and prefixing a timeout/transport failure. -/
def Client.get_claims (c : Client) (kv : KvOps)
    (bus : RequestOutcome GetClaimsResponse) :
    Except String GetClaimsResponse × MetaBranch :=
  match c.kvstore with
  | some _ => (kv.getClaimsResult, .store)
  | none =>
    (match bus with
     | .reply d => d
     | r => .error ("Did not receive claims from lattice: " ++ r.renderErr),
     .legacy)

/-- `Client::query_links` (`lib.rs:454-465`): store-backed clients read the
bucket; legacy clients issue a request on the link-query topic. -/
def Client.query_links (c : Client) (kv : KvOps)
    (bus : RequestOutcome LinkDefinitionList) :
    Except String LinkDefinitionList × MetaBranch :=
  match c.kvstore with
  | some _ => (kv.getLinksResult, .store)
  | none =>
    (match bus with
     | .reply d => d
     | r => .error ("Did not receive a response to links query: " ++ r.renderErr),
     .legacy)

/-- `Client::advertise_link` (`lib.rs:374-409`). In store mode the result is
`kv::put_link(store, ld).await.map(|_| CtlOperationAck \x7b accepted: true, .. \x7d)`:
`Result::map` leaves an `Err` untouched, so a store write failure is returned
to the caller as an error. In legacy mode the link definition is sent on the
advertise topic. -/
def Client.advertise_link (c : Client)
    (actorId providerId contractId linkName : String)
    (values : List (String × String)) (kv : KvOps)
    (bus : RequestOutcome CtlOperationAck) :
    Except String CtlOperationAck × MetaBranch :=
  let _ld : LinkDefinition :=
    { LinkDefinition.default with
        actor_id := actorId
        provider_id := providerId
        contract_id := contractId
        link_name := linkName
        values := values }
  match c.kvstore with
  | some _ =>
      (kv.putLinkResult.map (fun _ => { accepted := true, error := "" }), .store)
  | none =>
    (match bus with
     | .reply d => d
     | r => .error ("Did not receive advertise link acknowledgement: " ++ r.renderErr),
     .legacy)

/-- `Client::remove_link` (`lib.rs:415-448`). In store mode a delete failure is
mapped to a successful result with `accepted = false` and the error text
(`lib.rs:427-430`); in legacy mode the removal request is sent on the
remove-link topic. -/
def Client.remove_link (c : Client) (actorId contractId linkName : String)
    (kv : KvOps) (bus : RequestOutcome CtlOperationAck) :
    Except String CtlOperationAck × MetaBranch :=
  let _ld : LinkDefinition :=
    { LinkDefinition.default with
        actor_id := actorId
        contract_id := contractId
        link_name := linkName }
  match c.kvstore with
  | some _ =>
      (match kv.deleteLinkResult with
       | .ok _ => .ok { accepted := true, error := "" }
       | .error e => .ok { accepted := false, error := e },
       .store)
  | none =>
    (match bus with
     | .reply d => d
     | r => .error ("Did not receive remove link acknowledgement: " ++ r.renderErr),
     .legacy)

/-! ## Scatter-Gather Collector (`Client::publish_and_wait`, `lib.rs:661-683`) -/

/-- A NATS subject. Control subjects built by the `broker` module are plain
topic strings; reply subjects minted by `Client::new_inbox` live in the
reserved `_INBOX.` namespace and never collide with control topics, so the two
kinds are kept apart by constructor. -/
inductive Subject
  | topic (s : String)
  | inbox (n : Nat)
  deriving DecidableEq, Repr

/-- The inbox-allocation state of the shared NATS connection: `new_inbox`
returns a never-before-used inbox subject by advancing a counter. -/
structure NatsState where
  nextInbox : Nat
  deriving DecidableEq, Repr

/-- `async_nats::Client::new_inbox`: a fresh unique reply subject. -/
def NatsState.new_inbox (s : NatsState) : Subject × NatsState :=
  (.inbox s.nextInbox, { nextInbox := s.nextInbox + 1 })

/-- The bus actions `publish_and_wait` performs, in order. -/
inductive BusAction
  | subscribe (subject : Subject)
  | publishWithReply (subject : Subject) (reply : Subject)
  | flush
  deriving DecidableEq, Repr

/-- The environment one scatter-gather call runs against: the outcome of the
`subscribe` call, the outcome of the `publish_with_reply_and_headers` call, and
the replies that reach the fresh reply subject, as (arrival time in ms after
publication, `json_deserialize` outcome) in arrival order. -/
structure SgEnv (α : Type) where
  subResult : Except String Unit
  pubResult : Except String Unit
  replies : List (Nat × Except String α)
  deriving DecidableEq, Repr

/-- Modelled from the spec: `sub_stream::collect_timeout` (module `sub_stream`
is not under `src/`). Per the spec's Scatter-Gather Collector, it accumulates
every message arriving on the subscription before the window elapses, decodes
each one, logs and skips a message that fails to decode, and returns the
successfully decoded items in arrival order once the full window has elapsed.
The result pairs the decoded items with the elapsed time at which the call
returns. -/
def collect_timeout (window : Duration) :
    List (Nat × Except String α) → List α × Duration
  | [] => ([], window)
  | (t, d) :: rest =>
    if t < window then
      match d with
      | .ok x =>
          ((collect_timeout window rest).1.cons x, (collect_timeout window rest).2)
      | .error _ => collect_timeout window rest
    else ([], window)

/-- The observable outcome of one `publish_and_wait` call: the returned value,
the bus actions performed in order, the elapsed time at return, the reply
subject this call allocated, and the connection state afterwards. -/
structure SgRun (α : Type) where
  result : Except String (List α)
  trace : List BusAction
  elapsed : Duration
  replySubject : Subject
  ncAfter : NatsState
  deriving DecidableEq, Repr

/-- `Client::publish_and_wait` (`lib.rs:661-683`): allocate a fresh inbox,
subscribe to it, publish the request with that reply subject, spawn a
fire-and-forget flush, then collect replies for the full auction window. -/
def Client.publish_and_wait (c : Client) (subject : Subject) (env : SgEnv α)
    (s : NatsState) : SgRun α :=
  let reply := (s.new_inbox).1
  let s' := (s.new_inbox).2
  match env.subResult with
  | .error e =>
      { result := .error e
        trace := []
        elapsed := 0
        replySubject := reply
        ncAfter := s' }
  | .ok _ =>
    match env.pubResult with
    | .error e =>
        { result := .error e
          trace := [.subscribe reply]
          elapsed := 0
          replySubject := reply
          ncAfter := s' }
    | .ok _ =>
        { result := .ok (collect_timeout c.auctionTimeout env.replies).1
          trace := [.subscribe reply, .publishWithReply subject reply, .flush]
          elapsed := (collect_timeout c.auctionTimeout env.replies).2
          replySubject := reply
          ncAfter := s' }

/-- Modelled from the spec: the Subject Router (module `broker` is not under
`src/`) deterministically derives a control subject from the optional topic
prefix, the lattice id and the operation name. -/
def ctlSubject (topicPrefix : Option String) (nsPrefix operation : String) :
    Subject :=
  .topic ((topicPrefix.map (fun p => p ++ ".")).getD "" ++
    "wasmbus.ctl." ++ nsPrefix ++ "." ++ operation)

/-- `Host` from the missing `types` module, modelled by the only field the
client reads (`host.id`, `lib.rs:553`). -/
structure Host where
  id : String
  deriving DecidableEq, Repr

/-- `ActorAuctionAck` from the missing `types` module, modelled minimally. -/
structure ActorAuctionAck where
  actor_ref : String
  host_id : String
  deriving DecidableEq, Repr

/-- `ProviderAuctionAck` from the missing `types` module, modelled minimally. -/
structure ProviderAuctionAck where
  provider_ref : String
  link_name : String
  host_id : String
  deriving DecidableEq, Repr

/-- `Client::get_hosts` (`lib.rs:200-204`): a scatter-gather collection on the
host-query subject, waiting the full auction window. -/
def Client.get_hosts (c : Client) (env : SgEnv Host) (s : NatsState) :
    SgRun Host :=
  c.publish_and_wait (ctlSubject c.topicPrefix c.nsPrefix "ping.hosts") env s

/-- `Client::perform_actor_auction` (`lib.rs:245-257`): a scatter-gather
collection on the actor-auction subject. -/
def Client.perform_actor_auction (c : Client) (_actorRef : String)
    (_constraints : List (String × String)) (env : SgEnv ActorAuctionAck)
    (s : NatsState) : SgRun ActorAuctionAck :=
  c.publish_and_wait (ctlSubject c.topicPrefix c.nsPrefix "auction.actor") env s

/-- `Client::perform_provider_auction` (`lib.rs:264-278`): a scatter-gather
collection on the provider-auction subject. -/
def Client.perform_provider_auction (c : Client)
    (_providerRef _linkName : String) (_constraints : List (String × String))
    (env : SgEnv ProviderAuctionAck) (s : NatsState) : SgRun ProviderAuctionAck :=
  c.publish_and_wait (ctlSubject c.topicPrefix c.nsPrefix "auction.provider") env s

/-! ## Deferred Command Dispatcher (`Client::start_provider`, `lib.rs:508-573`) -/

/-- How `start_provider` dispatched the targeted command: synchronously to the
supplied host, in a spawned background task to a discovered host, or not at
all. -/
inductive Dispatch
  | targeted (hostId : String)
  | background (hostId : String)
  | noDispatch
  deriving DecidableEq, Repr

/-- The target-host test at `lib.rs:517`: `host_id.trim().is_empty()` holds
exactly when every character of the host id is whitespace. -/
def hostUnspecified (hostId : String) : Bool :=
  hostId.data.all Char.isWhitespace

/-- `Client::start_provider` (`lib.rs:508-573`). With a non-blank host id the
targeted request runs synchronously and its outcome (`targetedResult`, the
return value of `start_provider_`) is the result. With a blank host id, hosts
are enumerated via `get_hosts`; an enumeration failure or an empty host list
produces an immediate `Ok` acknowledgment with `accepted = true` and a
descriptive error, while a discovered host gets the targeted command spawned in
the background and the caller receives `accepted = true` with an empty error at
once. -/
def Client.start_provider (c : Client) (hostId : String)
    (targetedResult : Except String CtlOperationAck) (envH : SgEnv Host)
    (s : NatsState) : Except String CtlOperationAck × Dispatch :=
  if hostUnspecified hostId = false then
    (targetedResult, .targeted hostId)
  else
    match (c.get_hosts envH s).result with
    | .error e =>
        (.ok { accepted := true
               error := "failed to query hosts for no-host provider start: " ++ e },
         .noDispatch)
    | .ok hs =>
      match hs.head? with
      | some h => (.ok { accepted := true, error := "" }, .background h.id)
      | none =>
          (.ok { accepted := true
                 error := "No hosts detected in in no-host provider start." },
           .noDispatch)

/-! ## Event Stream Relay (`Client::events_receiver`, `lib.rs:733-758`) -/

/-- A CloudEvents envelope, abstracted to an opaque body. -/
structure Event where
  body : String
  deriving DecidableEq, Repr

/-- The relay loop spawned by `events_receiver` (`lib.rs:740-756`). Each bus
message is given by its `json_deserialize::<Event>` outcome; `accepts` is how
many more events the consumer's channel will take before the receiver is
dropped. A message that fails to decode is logged and skipped; a failed send
(receiver gone) unsubscribes and ends the loop; exhausting the subscription
ends the loop without unsubscribing. The result is the list of events
forwarded to the consumer, in arrival order, and whether the loop ended by
unsubscribing after a failed send. -/
def eventRelay : List (Except String Event) → Nat → List Event × Bool
  | [], _ => ([], false)
  | .error _ :: rest, accepts => eventRelay rest accepts
  | .ok _ :: _, 0 => ([], true)
  | .ok evt :: rest, accepts + 1 =>
      ((eventRelay rest accepts).1.cons evt, (eventRelay rest accepts).2)

/-- `Client::events_receiver` (`lib.rs:733-758`): subscribes once to the
control-event subject for the client's lattice and spawns `eventRelay` over the
arriving messages. -/
def Client.events_receiver (c : Client) (msgs : List (Except String Event))
    (accepts : Nat) : Subject × (List Event × Bool) :=
  (.topic ("wasmbus.evt." ++ c.nsPrefix), eventRelay msgs accepts)

/-! ## Helper lemmas -/

theorem get_claims_branch (c : Client) (kv : KvOps)
    (bus : RequestOutcome GetClaimsResponse) :
    (c.get_claims kv bus).2 = c.mode := by
  cases h : c.kvstore <;> simp [Client.get_claims, Client.mode, h]

theorem query_links_branch (c : Client) (kv : KvOps)
    (bus : RequestOutcome LinkDefinitionList) :
    (c.query_links kv bus).2 = c.mode := by
  cases h : c.kvstore <;> simp [Client.query_links, Client.mode, h]

theorem advertise_link_branch (c : Client) (aid pid cid ln : String)
    (vals : List (String × String)) (kv : KvOps)
    (bus : RequestOutcome CtlOperationAck) :
    (c.advertise_link aid pid cid ln vals kv bus).2 = c.mode := by
  cases h : c.kvstore <;> simp [Client.advertise_link, Client.mode, h]

theorem remove_link_branch (c : Client) (aid cid ln : String) (kv : KvOps)
    (bus : RequestOutcome CtlOperationAck) :
    (c.remove_link aid cid ln kv bus).2 = c.mode := by
  cases h : c.kvstore <;> simp [Client.remove_link, Client.mode, h]

/-! ## The claims -/

/-- C2: a client's metadata-operation mode is a pure function of the `kvstore`
field fixed by `ClientBuilder::build` from the single construction-time probe,
and every claims/link operation takes exactly the branch given by that mode, so
repeated operations on one client never alternate between the store and the
legacy path. -/
theorem claim2_mode_fixed_at_construction (b : ClientBuilder) (w : KvWorld)
    (c : Client) (kv kv' : KvOps) (busC : RequestOutcome GetClaimsResponse)
    (busL : RequestOutcome LinkDefinitionList)
    (busA busR : RequestOutcome CtlOperationAck)
    (aid pid cid ln : String) (vals : List (String × String))
    (hbuild : b.build w = .ok c) :
    c.mode = (if (get_kv_store w b.nsPrefix b.jsDomain).isSome
              then MetaBranch.store else MetaBranch.legacy) ∧
    (c.get_claims kv busC).2 = c.mode ∧
    (c.query_links kv busL).2 = c.mode ∧
    (c.advertise_link aid pid cid ln vals kv' busA).2 = c.mode ∧
    (c.remove_link aid cid ln kv' busR).2 = c.mode := by
  refine ⟨?_, get_claims_branch .., query_links_branch ..,
    advertise_link_branch .., remove_link_branch ..⟩
  cases hnc : b.nc with
  | none =>
    simp only [ClientBuilder.build, hnc] at hbuild
    simp at hbuild
  | some nc =>
    simp only [ClientBuilder.build, hnc] at hbuild
    injection hbuild with hc
    subst hc
    simp [Client.mode]

/-- C2 witness: a builder whose probe finds the bucket yields a store-mode
client whose four metadata operations all take the store branch. -/
theorem claim2_witness :
    Client.mode
      { nc := ⟨0⟩, topicPrefix := none, nsPrefix := "default", timeout := 2000,
        auctionTimeout := 5000, kvstore := some ⟨"LATTICEDATA_default"⟩ } =
      (if (get_kv_store (fun _ _ => some ⟨"LATTICEDATA_default"⟩)
            (ClientBuilder.new ⟨0⟩).nsPrefix (ClientBuilder.new ⟨0⟩).jsDomain).isSome
       then MetaBranch.store else MetaBranch.legacy) ∧
    (Client.get_claims
      { nc := ⟨0⟩, topicPrefix := none, nsPrefix := "default", timeout := 2000,
        auctionTimeout := 5000, kvstore := some ⟨"LATTICEDATA_default"⟩ }
      { getClaimsResult := .ok ⟨[]⟩, getLinksResult := .ok ⟨[]⟩,
        putLinkResult := .ok (), deleteLinkResult := .ok () } .timedOut).2 =
      Client.mode
        { nc := ⟨0⟩, topicPrefix := none, nsPrefix := "default", timeout := 2000,
          auctionTimeout := 5000, kvstore := some ⟨"LATTICEDATA_default"⟩ } ∧
    (Client.query_links
      { nc := ⟨0⟩, topicPrefix := none, nsPrefix := "default", timeout := 2000,
        auctionTimeout := 5000, kvstore := some ⟨"LATTICEDATA_default"⟩ }
      { getClaimsResult := .ok ⟨[]⟩, getLinksResult := .ok ⟨[]⟩,
        putLinkResult := .ok (), deleteLinkResult := .ok () } .timedOut).2 =
      Client.mode
        { nc := ⟨0⟩, topicPrefix := none, nsPrefix := "default", timeout := 2000,
          auctionTimeout := 5000, kvstore := some ⟨"LATTICEDATA_default"⟩ } ∧
    (Client.advertise_link
      { nc := ⟨0⟩, topicPrefix := none, nsPrefix := "default", timeout := 2000,
        auctionTimeout := 5000, kvstore := some ⟨"LATTICEDATA_default"⟩ }
      "a" "p" "c" "default" []
      { getClaimsResult := .ok ⟨[]⟩, getLinksResult := .ok ⟨[]⟩,
        putLinkResult := .ok (), deleteLinkResult := .ok () } .timedOut).2 =
      Client.mode
        { nc := ⟨0⟩, topicPrefix := none, nsPrefix := "default", timeout := 2000,
          auctionTimeout := 5000, kvstore := some ⟨"LATTICEDATA_default"⟩ } ∧
    (Client.remove_link
      { nc := ⟨0⟩, topicPrefix := none, nsPrefix := "default", timeout := 2000,
        auctionTimeout := 5000, kvstore := some ⟨"LATTICEDATA_default"⟩ }
      "a" "c" "default"
      { getClaimsResult := .ok ⟨[]⟩, getLinksResult := .ok ⟨[]⟩,
        putLinkResult := .ok (), deleteLinkResult := .ok () } .timedOut).2 =
      Client.mode
        { nc := ⟨0⟩, topicPrefix := none, nsPrefix := "default", timeout := 2000,
          auctionTimeout := 5000, kvstore := some ⟨"LATTICEDATA_default"⟩ } :=
  claim2_mode_fixed_at_construction (ClientBuilder.new ⟨0⟩)
    (fun _ _ => some ⟨"LATTICEDATA_default"⟩) _ _ _ _ _ _ _
    "a" "p" "c" "default" [] rfl

/-- C3: `ClientBuilder::build` returns an error exactly when no NATS connection
was supplied; with a connection it always succeeds, recording the probe's
outcome (possibly `none`) in `kvstore` instead of failing. -/
theorem claim3_build_error_iff_no_transport (b : ClientBuilder) (w : KvWorld) :
    ((∃ e, b.build w = .error e) ↔ b.nc = none) ∧
    (∀ nc, b.nc = some nc →
      b.build w = .ok
        { nc := nc
          topicPrefix := b.topicPrefix
          nsPrefix := b.nsPrefix
          timeout := b.timeout
          auctionTimeout := b.auctionTimeout
          kvstore := get_kv_store w b.nsPrefix b.jsDomain }) := by
  cases hnc : b.nc with
  | none =>
    refine ⟨⟨fun _ => rfl, fun _ =>
      ⟨"Cannot create a control interface client without a NATS client", ?_⟩⟩, ?_⟩
    · simp [ClientBuilder.build, hnc]
    · intro nc h
      simp at h
  | some nc0 =>
    refine ⟨⟨?_, ?_⟩, ?_⟩
    · rintro ⟨e, he⟩
      simp only [ClientBuilder.build, hnc] at he
      simp at he
    · intro h
      simp at h
    · intro nc h
      injection h with h'
      subst h'
      simp [ClientBuilder.build, hnc]

/-- C3 witness: with a connection supplied and a probe that finds no bucket,
`build` succeeds and selects legacy mode (`kvstore = none`). -/
theorem claim3_witness :
    (ClientBuilder.new ⟨0⟩).build (fun _ _ => none) = .ok
      { nc := ⟨0⟩
        topicPrefix := none
        nsPrefix := "default"
        timeout := 2000
        auctionTimeout := 5000
        kvstore := none } :=
  (claim3_build_error_iff_no_transport (ClientBuilder.new ⟨0⟩)
    (fun _ _ => none)).2 ⟨0⟩ rfl

/-- C8: a builder created without setting any option carries lattice id
"default", RPC timeout 2000 ms, auction timeout 5000 ms, no topic prefix and
no JetStream domain, and the built client inherits those values. -/
theorem claim8_builder_defaults (nc : NatsClient) (w : KvWorld) (c : Client)
    (h : (ClientBuilder.new nc).build w = .ok c) :
    (ClientBuilder.new nc).nsPrefix = "default" ∧
    (ClientBuilder.new nc).topicPrefix = none ∧
    (ClientBuilder.new nc).timeout = 2000 ∧
    (ClientBuilder.new nc).auctionTimeout = 5000 ∧
    (ClientBuilder.new nc).jsDomain = none ∧
    c.nsPrefix = "default" ∧ c.topicPrefix = none ∧
    c.timeout = 2000 ∧ c.auctionTimeout = 5000 := by
  simp only [ClientBuilder.build, ClientBuilder.new, ClientBuilder.default] at h
  injection h with hc
  subst hc
  exact ⟨rfl, rfl, rfl, rfl, rfl, rfl, rfl, rfl, rfl⟩

/-- C8 witness: the defaults at a concrete connection and key-value world. -/
theorem claim8_witness :
    (ClientBuilder.new ⟨7⟩).nsPrefix = "default" ∧
    (ClientBuilder.new ⟨7⟩).topicPrefix = none ∧
    (ClientBuilder.new ⟨7⟩).timeout = 2000 ∧
    (ClientBuilder.new ⟨7⟩).auctionTimeout = 5000 ∧
    (ClientBuilder.new ⟨7⟩).jsDomain = none ∧
    (Client.nsPrefix
      { nc := ⟨7⟩, topicPrefix := none, nsPrefix := "default", timeout := 2000,
        auctionTimeout := 5000, kvstore := none } = "default") ∧
    (Client.topicPrefix
      { nc := ⟨7⟩, topicPrefix := none, nsPrefix := "default", timeout := 2000,
        auctionTimeout := 5000, kvstore := none } = none) ∧
    (Client.timeout
      { nc := ⟨7⟩, topicPrefix := none, nsPrefix := "default", timeout := 2000,
        auctionTimeout := 5000, kvstore := none } = 2000) ∧
    (Client.auctionTimeout
      { nc := ⟨7⟩, topicPrefix := none, nsPrefix := "default", timeout := 2000,
        auctionTimeout := 5000, kvstore := none } = 5000) :=
  claim8_builder_defaults ⟨7⟩ (fun _ _ => none) _ rfl

/-- C10: the deprecated constructors `Client::new` and
`Client::new_with_topic_prefix` always set `kvstore` to `None` (they take no
key-value world to probe), so every claims/link operation on such a client
takes the legacy branch. -/
theorem claim10_deprecated_constructors_legacy (nc : NatsClient) (tp : String)
    (ns : Option String) (t a : Duration) (kv : KvOps)
    (busC : RequestOutcome GetClaimsResponse)
    (busL : RequestOutcome LinkDefinitionList)
    (busA busR : RequestOutcome CtlOperationAck)
    (aid pid cid ln : String) (vals : List (String × String)) :
    (Client.new nc ns t a).kvstore = none ∧
    (Client.newWithTopicPrefix nc tp ns t a).kvstore = none ∧
    ((Client.new nc ns t a).get_claims kv busC).2 = MetaBranch.legacy ∧
    ((Client.new nc ns t a).query_links kv busL).2 = MetaBranch.legacy ∧
    ((Client.new nc ns t a).advertise_link aid pid cid ln vals kv busA).2 =
      MetaBranch.legacy ∧
    ((Client.new nc ns t a).remove_link aid cid ln kv busR).2 =
      MetaBranch.legacy ∧
    ((Client.newWithTopicPrefix nc tp ns t a).get_claims kv busC).2 =
      MetaBranch.legacy ∧
    ((Client.newWithTopicPrefix nc tp ns t a).query_links kv busL).2 =
      MetaBranch.legacy ∧
    ((Client.newWithTopicPrefix nc tp ns t a).advertise_link
      aid pid cid ln vals kv busA).2 = MetaBranch.legacy ∧
    ((Client.newWithTopicPrefix nc tp ns t a).remove_link aid cid ln kv busR).2 =
      MetaBranch.legacy :=
  ⟨rfl, rfl, rfl, rfl, rfl, rfl, rfl, rfl, rfl, rfl⟩

theorem append_ne_empty_of_left_ne_empty (s t : String) (h : 0 < s.length) :
    s ++ t ≠ "" := by
  intro hc
  have hl := congrArg String.length hc
  rw [String.length_append] at hl
  simp at hl
  omega

/-- C5: `request_timeout` maps an elapsed timeout to the `TimedOut` failure,
returns a reply as success, surfaces a transport failure verbatim under a
failure kind distinct from timeout, issues exactly one transport request, and
its result depends only on that single attempt (no internal retry). -/
theorem claim5_request_timeout_kinds_and_single_attempt
    (attempt attempt2 : Nat → RaceOutcome) :
    (attempt 0 = .timedOut →
      (Client.request_timeout attempt).1 = .error (.timedOut "timed out")) ∧
    (∀ m, attempt 0 = .completed (.ok m) →
      (Client.request_timeout attempt).1 = .ok m) ∧
    (∀ e, attempt 0 = .completed (.error e) →
      (Client.request_timeout attempt).1 = .error (.transport e)) ∧
    (∀ e s, CtlError.transport e ≠ CtlError.timedOut s) ∧
    (Client.request_timeout attempt).2 = 1 ∧
    (attempt 0 = attempt2 0 →
      Client.request_timeout attempt = Client.request_timeout attempt2) := by
  refine ⟨?_, ?_, ?_, ?_, rfl, ?_⟩
  · intro h
    simp [Client.request_timeout, h]
  · intro m h
    simp [Client.request_timeout, h]
  · intro e h
    simp [Client.request_timeout, h]
  · intro e s hc
    cases hc
  · intro h
    simp [Client.request_timeout, h]

/-- C5 witness: the theorem applied to the constant timeout oracle. -/
theorem claim5_witness :
    (Client.request_timeout (fun _ => RaceOutcome.timedOut)).1 =
      .error (.timedOut "timed out") ∧
    (Client.request_timeout (fun _ => RaceOutcome.timedOut)).2 = 1 ∧
    Client.request_timeout (fun _ => RaceOutcome.timedOut) =
      Client.request_timeout
        (fun n => if n = 0 then RaceOutcome.timedOut
                  else RaceOutcome.completed (.ok ⟨[]⟩)) := by
  have h := claim5_request_timeout_kinds_and_single_attempt
    (fun _ => RaceOutcome.timedOut)
    (fun n => if n = 0 then RaceOutcome.timedOut
              else RaceOutcome.completed (.ok ⟨[]⟩))
  exact ⟨h.1 rfl, h.2.2.2.2.1, h.2.2.2.2.2 rfl⟩

/-- C4: when `start_provider` is called with a blank target host and host
enumeration fails or finds no host, the call returns `Ok` with an
acknowledgment whose `accepted` is true and whose error string is non-empty,
does not dispatch the targeted command, and its return value is independent of
the targeted exchange's outcome. -/
theorem claim4_deferred_start_no_host_ack (c : Client) (hostId : String)
    (t1 t2 : Except String CtlOperationAck) (envH : SgEnv Host) (s : NatsState)
    (hblank : hostUnspecified hostId = true)
    (hnone : (c.get_hosts envH s).result.isOk = false ∨
      (c.get_hosts envH s).result = .ok []) :
    (∃ ack, (c.start_provider hostId t1 envH s).1 = .ok ack ∧
      ack.accepted = true ∧ ack.error ≠ "") ∧
    (c.start_provider hostId t1 envH s).2 = Dispatch.noDispatch ∧
    c.start_provider hostId t1 envH s = c.start_provider hostId t2 envH s := by
  cases hr : (c.get_hosts envH s).result with
  | error e =>
    refine ⟨⟨{ accepted := true
               error := "failed to query hosts for no-host provider start: " ++ e },
      ?_, rfl, ?_⟩, ?_, ?_⟩
    · simp [Client.start_provider, hblank, hr]
    · exact append_ne_empty_of_left_ne_empty _ e (by decide)
    · simp [Client.start_provider, hblank, hr]
    · simp [Client.start_provider, hblank, hr]
  | ok hs =>
    have hempty : hs = [] := by
      rcases hnone with hbad | hok
      · rw [hr] at hbad
        simp [Except.isOk, Except.toBool] at hbad
      · rw [hr] at hok
        injection hok
    subst hempty
    refine ⟨⟨{ accepted := true
               error := "No hosts detected in in no-host provider start." },
      ?_, rfl, by decide⟩, ?_, ?_⟩
    · simp [Client.start_provider, hblank, hr]
    · simp [Client.start_provider, hblank, hr]
    · simp [Client.start_provider, hblank, hr]

/-- C4 witness: a blank host id with a host query that returns no hosts (the
subscription succeeds, the window elapses with zero replies). -/
theorem claim4_witness :
    (∃ ack,
      (Client.start_provider
        { nc := ⟨0⟩, topicPrefix := none, nsPrefix := "default", timeout := 2000,
          auctionTimeout := 5000, kvstore := none }
        "" (.ok { accepted := true, error := "" })
        { subResult := .ok (), pubResult := .ok (), replies := [] } ⟨0⟩).1 =
        .ok ack ∧ ack.accepted = true ∧ ack.error ≠ "") ∧
    (Client.start_provider
      { nc := ⟨0⟩, topicPrefix := none, nsPrefix := "default", timeout := 2000,
        auctionTimeout := 5000, kvstore := none }
      "" (.ok { accepted := true, error := "" })
      { subResult := .ok (), pubResult := .ok (), replies := [] } ⟨0⟩).2 =
      Dispatch.noDispatch ∧
    Client.start_provider
      { nc := ⟨0⟩, topicPrefix := none, nsPrefix := "default", timeout := 2000,
        auctionTimeout := 5000, kvstore := none }
      "" (.ok { accepted := true, error := "" })
      { subResult := .ok (), pubResult := .ok (), replies := [] } ⟨0⟩ =
    Client.start_provider
      { nc := ⟨0⟩, topicPrefix := none, nsPrefix := "default", timeout := 2000,
        auctionTimeout := 5000, kvstore := none }
      "" (.error "transport down")
      { subResult := .ok (), pubResult := .ok (), replies := [] } ⟨0⟩ :=
  claim4_deferred_start_no_host_ack _ "" _ _ _ _ (by decide) (Or.inr rfl)

theorem collect_timeout_elapsed (window : Duration)
    (rs : List (Nat × Except String α)) :
    (collect_timeout window rs).2 = window := by
  induction rs with
  | nil => rfl
  | cons hd tl ih =>
    obtain ⟨t, d⟩ := hd
    by_cases h : t < window
    · cases d with
      | ok x => simp [collect_timeout, h, ih]
      | error e => simp [collect_timeout, h, ih]
    · simp [collect_timeout, h]

theorem publish_and_wait_ok (c : Client) (subject : Subject) (env : SgEnv α)
    (s : NatsState) (hsub : env.subResult = .ok ())
    (hpub : env.pubResult = .ok ()) :
    (c.publish_and_wait subject env s).elapsed = c.auctionTimeout ∧
    (c.publish_and_wait subject env s).result =
      .ok (collect_timeout c.auctionTimeout env.replies).1 := by
  constructor <;>
    simp [Client.publish_and_wait, hsub, hpub, collect_timeout_elapsed]

theorem publish_and_wait_inbox (c : Client) (subject : Subject) (env : SgEnv α)
    (s : NatsState) :
    (c.publish_and_wait subject env s).replySubject = .inbox s.nextInbox ∧
    (c.publish_and_wait subject env s).ncAfter = ⟨s.nextInbox + 1⟩ := by
  cases hs : env.subResult <;> cases hp : env.pubResult <;>
    simp [Client.publish_and_wait, NatsState.new_inbox, hs, hp]

/-- C6: `get_hosts`, `perform_actor_auction` and `perform_provider_auction`
return only when the full auction window has elapsed, whatever the number of
replies, and a zero-reply collection is the successful empty sequence, never a
failure. -/
theorem claim6_auctions_full_window_and_empty_ok (c : Client) (s : NatsState)
    (envH : SgEnv Host) (envA : SgEnv ActorAuctionAck)
    (envP : SgEnv ProviderAuctionAck) (actorRef provRef ln : String)
    (cons : List (String × String))
    (hsubH : envH.subResult = .ok ()) (hpubH : envH.pubResult = .ok ())
    (hsubA : envA.subResult = .ok ()) (hpubA : envA.pubResult = .ok ())
    (hsubP : envP.subResult = .ok ()) (hpubP : envP.pubResult = .ok ()) :
    (c.get_hosts envH s).elapsed = c.auctionTimeout ∧
    (∃ xs, (c.get_hosts envH s).result = .ok xs) ∧
    (envH.replies = [] → (c.get_hosts envH s).result = .ok []) ∧
    (c.perform_actor_auction actorRef cons envA s).elapsed = c.auctionTimeout ∧
    (∃ xs, (c.perform_actor_auction actorRef cons envA s).result = .ok xs) ∧
    (envA.replies = [] →
      (c.perform_actor_auction actorRef cons envA s).result = .ok []) ∧
    (c.perform_provider_auction provRef ln cons envP s).elapsed =
      c.auctionTimeout ∧
    (∃ xs, (c.perform_provider_auction provRef ln cons envP s).result = .ok xs) ∧
    (envP.replies = [] →
      (c.perform_provider_auction provRef ln cons envP s).result = .ok []) := by
  obtain ⟨e1, r1⟩ := publish_and_wait_ok c
    (ctlSubject c.topicPrefix c.nsPrefix "ping.hosts") envH s hsubH hpubH
  obtain ⟨e2, r2⟩ := publish_and_wait_ok c
    (ctlSubject c.topicPrefix c.nsPrefix "auction.actor") envA s hsubA hpubA
  obtain ⟨e3, r3⟩ := publish_and_wait_ok c
    (ctlSubject c.topicPrefix c.nsPrefix "auction.provider") envP s hsubP hpubP
  refine ⟨e1, ⟨_, r1⟩, ?_, e2, ⟨_, r2⟩, ?_, e3, ⟨_, r3⟩, ?_⟩
  · intro h
    rw [Client.get_hosts, r1, h]
    rfl
  · intro h
    rw [Client.perform_actor_auction, r2, h]
    rfl
  · intro h
    rw [Client.perform_provider_auction, r3, h]
    rfl

/-- C6 witness: a client with the default 5000 ms window, successful
subscription and publication, and zero replies in every collection. -/
theorem claim6_witness :
    (Client.get_hosts
      { nc := ⟨0⟩, topicPrefix := none, nsPrefix := "default", timeout := 2000,
        auctionTimeout := 5000, kvstore := none }
      { subResult := .ok (), pubResult := .ok (), replies := [] } ⟨0⟩).elapsed =
      5000 ∧
    (Client.get_hosts
      { nc := ⟨0⟩, topicPrefix := none, nsPrefix := "default", timeout := 2000,
        auctionTimeout := 5000, kvstore := none }
      { subResult := .ok (), pubResult := .ok (), replies := [] } ⟨0⟩).result =
      .ok [] ∧
    (Client.perform_actor_auction
      { nc := ⟨0⟩, topicPrefix := none, nsPrefix := "default", timeout := 2000,
        auctionTimeout := 5000, kvstore := none }
      "a" []
      { subResult := .ok (), pubResult := .ok (), replies := [] } ⟨0⟩).elapsed =
      5000 ∧
    (Client.perform_actor_auction
      { nc := ⟨0⟩, topicPrefix := none, nsPrefix := "default", timeout := 2000,
        auctionTimeout := 5000, kvstore := none }
      "a" []
      { subResult := .ok (), pubResult := .ok (), replies := [] } ⟨0⟩).result =
      .ok [] ∧
    (Client.perform_provider_auction
      { nc := ⟨0⟩, topicPrefix := none, nsPrefix := "default", timeout := 2000,
        auctionTimeout := 5000, kvstore := none }
      "p" "default" []
      { subResult := .ok (), pubResult := .ok (), replies := [] } ⟨0⟩).elapsed =
      5000 ∧
    (Client.perform_provider_auction
      { nc := ⟨0⟩, topicPrefix := none, nsPrefix := "default", timeout := 2000,
        auctionTimeout := 5000, kvstore := none }
      "p" "default" []
      { subResult := .ok (), pubResult := .ok (), replies := [] } ⟨0⟩).result =
      .ok [] := by
  obtain ⟨e1, _, z1, e2, _, z2, e3, _, z3⟩ :=
    claim6_auctions_full_window_and_empty_ok
      { nc := ⟨0⟩, topicPrefix := none, nsPrefix := "default", timeout := 2000,
        auctionTimeout := 5000, kvstore := none } ⟨0⟩
      { subResult := .ok (), pubResult := .ok (), replies := [] }
      { subResult := .ok (), pubResult := .ok (), replies := [] }
      { subResult := .ok (), pubResult := .ok (), replies := [] }
      "a" "p" "default" [] rfl rfl rfl rfl rfl rfl
  exact ⟨e1, z1 rfl, e2, z2 rfl, e3, z3 rfl⟩

/-- C7: every scatter-gather collection subscribes to its freshly allocated
reply subject as its first bus action, publishes (strictly later) with exactly
that reply subject attached, and a second collection started afterwards on the
same connection allocates a different reply subject. -/
theorem claim7_fresh_reply_subject_subscribed_first {α β : Type}
    (c c' : Client) (subj subj' : Subject) (env : SgEnv α) (env' : SgEnv β)
    (s : NatsState) (k : Nat) (sub2 rep2 : Subject)
    (hpub : (c.publish_and_wait subj env s).trace.get? k =
      some (.publishWithReply sub2 rep2)) :
    rep2 = (c.publish_and_wait subj env s).replySubject ∧
    0 < k ∧
    (c.publish_and_wait subj env s).trace.get? 0 =
      some (.subscribe ((c.publish_and_wait subj env s).replySubject)) ∧
    (c'.publish_and_wait subj' env'
      ((c.publish_and_wait subj env s).ncAfter)).replySubject ≠
      (c.publish_and_wait subj env s).replySubject := by
  have hne : (c'.publish_and_wait subj' env'
      ((c.publish_and_wait subj env s).ncAfter)).replySubject ≠
      (c.publish_and_wait subj env s).replySubject := by
    rw [(publish_and_wait_inbox c subj env s).1,
      (publish_and_wait_inbox c subj env s).2,
      (publish_and_wait_inbox c' subj' env' ⟨s.nextInbox + 1⟩).1]
    intro hcon
    injection hcon with hcon'
    simp at hcon'
  cases hs : env.subResult with
  | error e =>
    have ht : (c.publish_and_wait subj env s).trace = [] := by
      simp [Client.publish_and_wait, hs]
    rw [ht] at hpub
    simp at hpub
  | ok u =>
    cases hp : env.pubResult with
    | error e =>
      have ht : (c.publish_and_wait subj env s).trace =
          [.subscribe (.inbox s.nextInbox)] := by
        simp [Client.publish_and_wait, NatsState.new_inbox, hs, hp]
      rw [ht] at hpub
      rcases k with _ | k <;> simp [List.get?] at hpub
    | ok v =>
      have ht : (c.publish_and_wait subj env s).trace =
          [.subscribe (.inbox s.nextInbox),
           .publishWithReply subj (.inbox s.nextInbox), .flush] := by
        simp [Client.publish_and_wait, NatsState.new_inbox, hs, hp]
      rw [ht] at hpub
      rcases k with _ | _ | _ | k <;> simp [List.get?] at hpub
      obtain ⟨hsub2, hrep2⟩ := hpub
      refine ⟨?_, by omega, ?_, hne⟩
      · rw [(publish_and_wait_inbox c subj env s).1, hrep2]
      · rw [ht, (publish_and_wait_inbox c subj env s).1]
        rfl

/-- C7 witness: a concrete collection whose trace publishes at index 1 with the
fresh inbox attached, after subscribing to it at index 0; the next collection
on the same connection gets a different inbox. -/
theorem claim7_witness :
    Subject.inbox 0 =
      (Client.publish_and_wait
        { nc := ⟨0⟩, topicPrefix := none, nsPrefix := "default", timeout := 2000,
          auctionTimeout := 5000, kvstore := none }
        (.topic "x")
        ({ subResult := .ok (), pubResult := .ok (), replies := [] } : SgEnv Host)
        ⟨0⟩).replySubject ∧
    0 < 1 ∧
    (Client.publish_and_wait
      { nc := ⟨0⟩, topicPrefix := none, nsPrefix := "default", timeout := 2000,
        auctionTimeout := 5000, kvstore := none }
      (.topic "x")
      ({ subResult := .ok (), pubResult := .ok (), replies := [] } : SgEnv Host)
      ⟨0⟩).trace.get? 0 =
      some (.subscribe
        ((Client.publish_and_wait
          { nc := ⟨0⟩, topicPrefix := none, nsPrefix := "default", timeout := 2000,
            auctionTimeout := 5000, kvstore := none }
          (.topic "x")
          ({ subResult := .ok (), pubResult := .ok (), replies := [] } : SgEnv Host)
          ⟨0⟩).replySubject)) ∧
    (Client.publish_and_wait
      { nc := ⟨0⟩, topicPrefix := none, nsPrefix := "default", timeout := 2000,
        auctionTimeout := 5000, kvstore := none }
      (.topic "y")
      ({ subResult := .ok (), pubResult := .ok (), replies := [] } : SgEnv Host)
      ((Client.publish_and_wait
        { nc := ⟨0⟩, topicPrefix := none, nsPrefix := "default", timeout := 2000,
          auctionTimeout := 5000, kvstore := none }
        (.topic "x")
        ({ subResult := .ok (), pubResult := .ok (), replies := [] } : SgEnv Host)
        ⟨0⟩).ncAfter)).replySubject ≠
      (Client.publish_and_wait
        { nc := ⟨0⟩, topicPrefix := none, nsPrefix := "default", timeout := 2000,
          auctionTimeout := 5000, kvstore := none }
        (.topic "x")
        ({ subResult := .ok (), pubResult := .ok (), replies := [] } : SgEnv Host)
        ⟨0⟩).replySubject :=
  claim7_fresh_reply_subject_subscribed_first
    { nc := ⟨0⟩, topicPrefix := none, nsPrefix := "default", timeout := 2000,
      auctionTimeout := 5000, kvstore := none }
    { nc := ⟨0⟩, topicPrefix := none, nsPrefix := "default", timeout := 2000,
      auctionTimeout := 5000, kvstore := none }
    (.topic "x") (.topic "y")
    { subResult := .ok (), pubResult := .ok (), replies := [] }
    { subResult := .ok (), pubResult := .ok (), replies := [] }
    ⟨0⟩ 1 (.topic "x") (.inbox 0) rfl

/-- C1 counterexample: a store-backed client whose store write fails with
"key not found". `advertise_link` then returns that failure as an error to the
caller (`Result::map` at `lib.rs:390` leaves the `Err` untouched); it does not
return a successful result carrying `accepted = false`. -/
theorem claim1_counterexample :
    (Client.advertise_link
      { nc := ⟨0⟩, topicPrefix := none, nsPrefix := "default", timeout := 2000,
        auctionTimeout := 5000, kvstore := some ⟨"LATTICEDATA_default"⟩ }
      "actor" "provider" "contract" "default" []
      { getClaimsResult := .ok ⟨[]⟩, getLinksResult := .ok ⟨[]⟩,
        putLinkResult := .error "key not found", deleteLinkResult := .ok () }
      (.reply (.ok ⟨true, ""⟩))).1 = .error "key not found" ∧
    (Client.advertise_link
      { nc := ⟨0⟩, topicPrefix := none, nsPrefix := "default", timeout := 2000,
        auctionTimeout := 5000, kvstore := some ⟨"LATTICEDATA_default"⟩ }
      "actor" "provider" "contract" "default" []
      { getClaimsResult := .ok ⟨[]⟩, getLinksResult := .ok ⟨[]⟩,
        putLinkResult := .error "key not found", deleteLinkResult := .ok () }
      (.reply (.ok ⟨true, ""⟩))).1.isOk = false :=
  ⟨rfl, rfl⟩

/-- C1 amended: for a store-backed client, `remove_link` maps a store delete
failure to a successful result whose acknowledgment has `accepted = false` and
the error text, while `advertise_link` propagates a store write failure to the
caller as an error result. -/
theorem claim1_amended_store_failure_handling (c : Client) (st : Store)
    (kv : KvOps) (busA busR : RequestOutcome CtlOperationAck)
    (aid pid cid ln : String) (vals : List (String × String)) (e e' : String)
    (hst : c.kvstore = some st) (hput : kv.putLinkResult = .error e)
    (hdel : kv.deleteLinkResult = .error e') :
    (c.advertise_link aid pid cid ln vals kv busA).1 = .error e ∧
    (c.remove_link aid cid ln kv busR).1 =
      .ok { accepted := false, error := e' } := by
  constructor
  · simp [Client.advertise_link, hst, hput, Except.map]
  · simp [Client.remove_link, hst, hdel]

/-- C1 amended witness: the amended behavior at a concrete store-backed client
with failing store operations. -/
theorem claim1_amended_witness :
    (Client.advertise_link
      { nc := ⟨0⟩, topicPrefix := none, nsPrefix := "default", timeout := 2000,
        auctionTimeout := 5000, kvstore := some ⟨"LATTICEDATA_default"⟩ }
      "actor" "provider" "contract" "default" []
      { getClaimsResult := .ok ⟨[]⟩, getLinksResult := .ok ⟨[]⟩,
        putLinkResult := .error "write conflict",
        deleteLinkResult := .error "key not found" }
      .timedOut).1 = .error "write conflict" ∧
    (Client.remove_link
      { nc := ⟨0⟩, topicPrefix := none, nsPrefix := "default", timeout := 2000,
        auctionTimeout := 5000, kvstore := some ⟨"LATTICEDATA_default"⟩ }
      "actor" "contract" "default"
      { getClaimsResult := .ok ⟨[]⟩, getLinksResult := .ok ⟨[]⟩,
        putLinkResult := .error "write conflict",
        deleteLinkResult := .error "key not found" }
      .timedOut).1 = .ok { accepted := false, error := "key not found" } :=
  claim1_amended_store_failure_handling
    { nc := ⟨0⟩, topicPrefix := none, nsPrefix := "default", timeout := 2000,
      auctionTimeout := 5000, kvstore := some ⟨"LATTICEDATA_default"⟩ }
    ⟨"LATTICEDATA_default"⟩
    { getClaimsResult := .ok ⟨[]⟩, getLinksResult := .ok ⟨[]⟩,
      putLinkResult := .error "write conflict",
      deleteLinkResult := .error "key not found" }
    .timedOut .timedOut
    "actor" "provider" "contract" "default" [] "write conflict" "key not found"
    rfl rfl rfl

/-- C9: a message on the event stream that fails to decode is skipped and the
relay goes on: the events forwarded to the consumer and the way the relay
terminates are exactly those of the same stream without the undecodable
message, wherever it occurs and whatever the consumer does; in particular one
bad message never tears the subscription down and never surfaces a failure. -/
theorem claim9_relay_skips_undecodable (c : Client)
    (pre post : List (Except String Event)) (bad : String) (accepts : Nat) :
    c.events_receiver (pre ++ .error bad :: post) accepts =
      c.events_receiver (pre ++ post) accepts := by
  have h : ∀ (msgs : List (Except String Event)) (a : Nat),
      eventRelay (msgs ++ .error bad :: post) a = eventRelay (msgs ++ post) a := by
    intro msgs
    induction msgs with
    | nil => intro a; rfl
    | cons hd tl ih =>
      intro a
      cases hd with
      | error e => simpa [eventRelay] using ih a
      | ok evt =>
        cases a with
        | zero => rfl
        | succ n => simp [eventRelay, ih n]
  simp [Client.events_receiver, h pre accepts]

end WasmcloudCtl
